import Mathlib

/-!
Shallow embedding of the sticker-alias' bot (src/main.py).

The SQLite database is modelled as lists of rows, one list per table, in
insertion (rowid) order.  SQL statements become Lean functions on this state:
`INSERT` appends, `UPDATE` maps, `DELETE` filters, `SELECT ... ORDER BY`
filters and sorts.  Statements that can raise `sqlite3.IntegrityError`
(UNIQUE / FOREIGN KEY, the only two kinds the handlers catch or can trigger
here) return `Except SqlError`.  Handler-level Python code that would raise an
uncaught exception (a `KeyError` on chat scratch data, an `IntegrityError`
outside a `try`) is modelled by an `Option` result, `none` meaning the update
handler crashes; since the shared connection only commits at the end of a
successful step, a crashed step leaves the database in its pre-step state.

Timestamps are integer seconds.  The scoring engine's floating-point
arithmetic (`calculate_score`, Python's `round`) is modelled over `ℝ`, with
`round` as round-half-to-even exactly as in Python.
-/

/-- The two `sqlite3.IntegrityError` kinds the code distinguishes:
`"UNIQUE constraint failed: ..."` and `"FOREIGN KEY constraint failed"`. -/
inductive SqlError where
  | uniqueFailed
  | fkFailed
deriving Repr, DecidableEq

/-- A row of TABLE `user` (`user_id`, `nickname`, `admin`); `nickname` is
irrelevant to every handler modelled here and is omitted. -/
structure UserRow where
  user_id : Int
  admin : Int
deriving Repr, DecidableEq

/-- A row of TABLE `sticker`. -/
structure StickerRow where
  file_unique_id : String
  file_id : String
  user_id : Int
  alias' : Option String
  set_alias : Option String
deriving Repr, DecidableEq

/-- A row of TABLE `favorite`; PRIMARY KEY (user_id, file_unique_id). -/
structure FavoriteRow where
  user_id : Int
  file_unique_id : String
  group_no : Int
deriving Repr, DecidableEq

/-- A row of TABLE `chosen` (the usage-event log); `chosen_time` in seconds. -/
structure ChosenRow where
  file_unique_id : String
  user_id : Int
  chosen_time : Int
deriving Repr, DecidableEq

/-- A row of TABLE `trending`; `score` is the integer rank index written by
the scoring job. -/
structure TrendingRow where
  file_unique_id : String
  user_id : Int
  score : Int
deriving Repr, DecidableEq

/-- The whole database of `initial_DB`, one list per table in rowid order. -/
structure DB where
  user : List UserRow
  sticker : List StickerRow
  favorite : List FavoriteRow
  chosen : List ChosenRow
  trending : List TrendingRow
deriving Repr, DecidableEq

/-- Embeds `SELECT user_id FROM user` (`select_all_user_id`). -/
def select_all_user_id (db : DB) : List Int :=
  db.user.map (·.user_id)

/-- Whether a `user` row with this id exists (the FOREIGN KEY target). -/
def userExists (db : DB) (user_id : Int) : Bool :=
  db.user.any (·.user_id = user_id)

/-- Whether a `sticker` row with this key exists (the FOREIGN KEY target). -/
def stickerExists (db : DB) (file_unique_id : String) : Bool :=
  db.sticker.any (·.file_unique_id = file_unique_id)

/-- Whether inserting (user_id, file_unique_id) into `favorite` hits its
PRIMARY KEY (user_id, file_unique_id). -/
def favPKConflict (db : DB) (user_id : Int) (file_unique_id : String) : Bool :=
  db.favorite.any fun r => r.user_id = user_id && r.file_unique_id = file_unique_id

/-- The `DO UPDATE SET` clause of `insert_or_update_sticker` applied to the
conflicting row: always `user_id=?`, plus `alias'=?` when an alias was
supplied, else `set_alias=?` when a set_alias was supplied (the source builds
the clause with an `if alias is not None / elif set_alias is not None`
chain).  `file_id` is never part of the clause. -/
def upsertUpdate (user_id : Int) (alias' set_alias : Option String)
    (r : StickerRow) : StickerRow :=
  let r1 := { r with user_id := user_id }
  match alias', set_alias with
  | some a, _ => { r1 with alias' := some a }
  | none, some s => { r1 with set_alias := some s }
  | none, none => r1

/-- Embeds `insert_or_update_sticker`: `INSERT INTO sticker VALUES(?,?,?,?,?)
ON CONFLICT(file_unique_id) DO UPDATE SET ...` (see `upsertUpdate`).  The
FOREIGN KEY on `user_id` applies to both paths. -/
def insert_or_update_sticker (db : DB) (file_unique_id file_id : String)
    (user_id : Int) (alias' set_alias : Option String) : Except SqlError DB :=
  if ¬ userExists db user_id then .error .fkFailed
  else if stickerExists db file_unique_id then
    .ok { db with sticker := db.sticker.map fun r =>
      if r.file_unique_id = file_unique_id then
        upsertUpdate user_id alias' set_alias r
      else r }
  else
    .ok { db with sticker :=
      db.sticker ++ [⟨file_unique_id, file_id, user_id, alias', set_alias⟩] }

/-- Embeds `search_sticker_by_unique_id`: `SELECT * FROM sticker WHERE
file_unique_id=?`, `fetchone`. -/
def search_sticker_by_unique_id (db : DB) (file_unique_id : String) :
    Option StickerRow :=
  db.sticker.find? (·.file_unique_id = file_unique_id)

/-- Embeds `insert_favorite`: plain `INSERT INTO favorite VALUES(?,?,?)`; raises
UNIQUE on a PRIMARY KEY conflict, FOREIGN KEY when the referenced user or
sticker row is missing; on success `cursor.rowcount` is 1. -/
def insert_favorite (db : DB) (user_id : Int) (file_unique_id : String)
    (group_no : Int) : Except SqlError DB :=
  if favPKConflict db user_id file_unique_id then .error .uniqueFailed
  else if ¬ (userExists db user_id && stickerExists db file_unique_id) then
    .error .fkFailed
  else .ok { db with favorite :=
    db.favorite ++ [⟨user_id, file_unique_id, group_no⟩] }

/-- Embeds `delete_favoirte` (name as in the source): `DELETE FROM favorite WHERE
user_id=? AND file_unique_id=? AND group_no=?`; returns the new table and
`cursor.rowcount` (number of deleted rows). -/
def delete_favoirte (db : DB) (user_id : Int) (file_unique_id : String)
    (group_no : Int) : DB × Int :=
  let keep := db.favorite.filter fun r =>
    ¬ (r.user_id = user_id ∧ r.file_unique_id = file_unique_id ∧
       r.group_no = group_no)
  ({ db with favorite := keep },
   (db.favorite.length : Int) - (keep.length : Int))

/-- Embeds `search_favorite_group_no`: `SELECT group_no FROM favorite WHERE user_id=?
AND file_unique_id=?`, `fetchone`. -/
def search_favorite_group_no (db : DB) (user_id : Int)
    (file_unique_id : String) : Option Int :=
  (db.favorite.find? fun r =>
    r.user_id = user_id && r.file_unique_id = file_unique_id).map (·.group_no)

/-- Embeds `count_favorite_sticker`: `SELECT COUNT(*) FROM favorite WHERE user_id=?
AND group_no=?`. -/
def count_favorite_sticker (db : DB) (user_id : Int) (group_no : Int) : Int :=
  (db.favorite.filter fun r =>
    r.user_id = user_id ∧ r.group_no = group_no).length

/-- The score looked up by the LEFT OUTER JOINs:
`trending.user_id=? AND sticker.file_unique_id = trending.file_unique_id`. -/
def trendScore (db : DB) (user_id : Int) (file_unique_id : String) :
    Option Int :=
  (db.trending.find? fun t =>
    t.user_id = user_id && t.file_unique_id = file_unique_id).map (·.score)

/-- Descending order on joined (file_unique_id, file_id, score) rows:
`ORDER BY score DESC`. -/
def geScore (a b : String × String × Int) : Prop :=
  b.2.2 ≤ a.2.2

instance : DecidableRel geScore := fun _ _ => Int.decLe _ _

instance : IsTotal (String × String × Int) geScore :=
  ⟨fun x y => (le_total y.2.2 x.2.2).imp id id⟩

instance : IsTrans (String × String × Int) geScore :=
  ⟨fun _ _ _ h1 h2 => le_trans h2 h1⟩

/-- The sticker rows that have a trending score for this user, paired with
that score, in sticker-table order (the join's pre-sort row set). -/
def rankedRows (db : DB) (user_id : Int) : List (String × String × Int) :=
  db.sticker.filterMap fun s =>
    match trendScore db user_id s.file_unique_id with
    | some sc => some (s.file_unique_id, s.file_id, sc)
    | none => none

/-- Embeds `search_trending_sticker`: LEFT OUTER JOIN of `sticker` against the
user's `trending` rows, `WHERE score IS NOT NULL ORDER BY score DESC`. -/
def search_trending_sticker (db : DB) (user_id : Int) :
    List (String × String) :=
  ((rankedRows db user_id).insertionSort geScore).map fun r => (r.1, r.2.1)

/-- Char-list prefix test (structural model of `str.startswith`, written
over code points as Python strings are). -/
def prefixMatch : List Char → List Char → Bool
  | [], _ => true
  | _ :: _, [] => false
  | a :: as, b :: bs => a = b && prefixMatch as bs

/-- Char-list suffix test (structural model of `str.endswith`). -/
def suffixMatch (suf l : List Char) : Bool :=
  prefixMatch suf.reverse l.reverse

/-- Char-list substring containment. -/
def infixMatch (pat : List Char) : List Char → Bool
  | [] => pat.isEmpty
  | c :: rest => prefixMatch pat (c :: rest) || infixMatch pat rest

/-- SQLite's `LIKE` case folding: ASCII upper-case letters fold to lower
case, every other code point is left alone. -/
def sqliteLower (c : Char) : Char :=
  if 'A' ≤ c ∧ c ≤ 'Z' then Char.ofNat (c.toNat + 32) else c

/-- Embeds `x LIKE '%pat%'`: substring containment with SQLite's ASCII case
folding (wildcard characters inside the pattern are not used by any call
site modelled here). -/
def sqlLike (s pat : String) : Bool :=
  infixMatch (pat.toList.map sqliteLower) (s.toList.map sqliteLower)

/-- Embeds `ORDER BY score DESC` over the outer join's `Option Int` score column:
in SQLite NULL is smaller than every integer, so descending order puts NULL
scores last. -/
def geOptScoreB (a b : String × String × Option Int) : Bool :=
  match a.2.2, b.2.2 with
  | _, none => true
  | none, some _ => false
  | some x, some y => y ≤ x

/-- Propositional form of `geOptScoreB`. -/
def geOptScore (a b : String × String × Option Int) : Prop :=
  geOptScoreB a b = true

instance : DecidableRel geOptScore := fun _ _ => instDecidableEqBool _ _

instance : IsTotal (String × String × Option Int) geOptScore :=
  ⟨fun x y => by
    obtain ⟨x1, x2, xc⟩ := x
    obtain ⟨y1, y2, yc⟩ := y
    unfold geOptScore geOptScoreB
    rcases xc with _ | a <;> rcases yc with _ | b <;> simp
    exact le_total b a⟩

instance : IsTrans (String × String × Option Int) geOptScore :=
  ⟨fun x y z h1 h2 => by
    obtain ⟨x1, x2, xc⟩ := x
    obtain ⟨y1, y2, yc⟩ := y
    obtain ⟨z1, z2, zc⟩ := z
    unfold geOptScore geOptScoreB at *
    rcases xc with _ | a <;> rcases yc with _ | b <;>
      rcases zc with _ | c <;> simp_all
    exact le_trans h2 h1⟩

/-- Embeds `search_sticker_by_alias`: rows of `sticker` whose `alias'` matches
`LIKE '%?%'` (a NULL alias' never matches), LEFT OUTER JOINed with the user's
trending score, `ORDER BY score DESC` (in SQLite a NULL score sorts last). -/
def search_sticker_by_alias (db : DB) (user_id : Int) (alias' : String) :
    List (String × String) :=
  let rows := db.sticker.filterMap fun s =>
    match s.alias' with
    | none => none
    | some a =>
      if sqlLike a alias' then some (s.file_unique_id, s.file_id,
        trendScore db user_id s.file_unique_id)
      else none
  (rows.insertionSort geOptScore).map fun r => (r.1, r.2.1)

/-- Embeds `search_sticker_by_set_alias`: `SELECT file_unique_id, file_id FROM
sticker WHERE set_alias like ?` — no join with `trending`, no ORDER BY, so
rows come back in sticker-table order. -/
def search_sticker_by_set_alias (db : DB) (set_alias : String) :
    List (String × String) :=
  db.sticker.filterMap fun s =>
    match s.set_alias with
    | none => none
    | some a =>
      if sqlLike a set_alias then some (s.file_unique_id, s.file_id) else none

/-- Embeds `search_sticker_by_favortie` (name as in the source): INNER JOIN of
`sticker` with the user's `favorite` rows of one group. -/
def search_sticker_by_favortie (db : DB) (user_id : Int) (group_no : Int) :
    List (String × String) :=
  db.sticker.filterMap fun s =>
    if db.favorite.any fun f =>
        f.file_unique_id = s.file_unique_id && f.user_id = user_id &&
        f.group_no = group_no
    then some (s.file_unique_id, s.file_id)
    else none

/-- Embeds `search_chosen_recent`: `SELECT * FROM chosen WHERE user_id=? AND
chosen_time>=? ORDER BY chosen_time`. -/
def search_chosen_recent (db : DB) (user_id : Int) (chosen_time : Int) :
    List ChosenRow :=
  (db.chosen.filter fun r =>
    r.user_id = user_id && chosen_time ≤ r.chosen_time).insertionSort
    fun a b => a.chosen_time ≤ b.chosen_time

/-- Embeds `insert_chosen`: `INSERT INTO chosen VALUES(?,?,?)` (append-only log). -/
def insert_chosen (db : DB) (file_unique_id : String) (user_id : Int)
    (chosen_time : Int) : DB :=
  { db with chosen := db.chosen ++ [⟨file_unique_id, user_id, chosen_time⟩] }

/-- Embeds `calculate_score(age, gravity=1.8)`: `1 / pow((age + 2), gravity)`.  The
call sites never override `gravity`. -/
noncomputable def calculate_score (age : ℝ) : ℝ :=
  1 / (age + 2) ^ (1.8 : ℝ)

/-- Python's built-in `round`: nearest integer, ties to even. -/
noncomputable def pyRound (x : ℝ) : ℤ :=
  if x - ⌊x⌋ < 1 / 2 then ⌊x⌋
  else if 1 / 2 < x - ⌊x⌋ then ⌊x⌋ + 1
  else if Even ⌊x⌋ then ⌊x⌋ else ⌊x⌋ + 1

/-- The integer day age the scoring loop computes for one usage event:
`round(age.total_seconds() / 86400)`. -/
noncomputable def day_age (now chosen_time : Int) : ℤ :=
  pyRound (((now - chosen_time : Int) : ℝ) / 86400)

/-- The accumulated decayed score `score_dict[file_unique_id]`: the sum of
`calculate_score(day_age)` over this item's events in `recorder` (the
`try/except KeyError` initialisation makes the first contribution start
from 0). -/
noncomputable def scoreOf (now : Int) (recorder : List ChosenRow)
    (file_unique_id : String) : ℝ :=
  (recorder.filter fun r => r.file_unique_id = file_unique_id).foldl
    (fun s r => s + calculate_score ((day_age now r.chosen_time : ℤ) : ℝ)) 0

/-- Python dict key order: first occurrence of each key in insertion order
(the loop inserts keys in `recorder` order). -/
def dictKeys (l : List String) : List String :=
  l.foldl (fun acc x => if x ∈ acc then acc else acc ++ [x]) []

/-- Embeds `sorted(score_dict, key=score_dict.get)`: the keys in ascending order of
accumulated score; Python's sort and `List.insertionSort` are both stable. -/
noncomputable def sortByScore (score : String → ℝ) (l : List String) :
    List String :=
  letI : DecidableRel (fun a b : String => score a ≤ score b) :=
    fun a b => Real.decidableLE (score a) (score b)
  l.insertionSort fun a b => score a ≤ score b

/-- The trending rows one scoring pass writes for one user: rank indices
`0..n-1` (`enumerate`) over the score-ascending key list, each inserted by
`insert_trending_tmp(cursor, file_unique_id, user_id, idx)`. -/
noncomputable def trendingRowsFor (db : DB) (now : Int) (user_id : Int) :
    List TrendingRow :=
  let oldest_time := now - 90 * 86400
  let recorder := search_chosen_recent db user_id oldest_time
  let score_list := sortByScore (scoreOf now recorder)
    (dictKeys (recorder.map (·.file_unique_id)))
  score_list.enum.map fun p => ⟨p.2, user_id, (p.1 : Int)⟩

/-- Embeds `callback_update_trending` (database effect): rebuild the staging
`trending_tmp` from the last 90 days of the `chosen` log, user by user in
`select_all_user_id` order, then `drop_trending` + `alter_tmp_to_trending`,
i.e. replace the served `trending` table wholesale.  `now` (the run's
`datetime.now()`) is a parameter. -/
noncomputable def callback_update_trending (db : DB) (now : Int) : DB :=
  let newTrending := (select_all_user_id db).foldl
    (fun acc user_id => acc ++ trendingRowsFor db now user_id) []
  { db with trending := newTrending }

/-- Embeds `flag_parser`: strips a leading set-alias marker (fullwidth or ASCII
comma) and a trailing `" i"` freshness marker, collecting the matching
flags.  (Named `flag_parser` in the source.) -/
def parse_flags (query : String) : List String × String :=
  let (flags1, alias1) :=
    if prefixMatch "，".toList query.toList ||
        prefixMatch ",".toList query.toList then
      (["set alias"], query.drop 1)
    else ([], query)
  if suffixMatch " i".toList query.toList then
    (flags1 ++ ["fresh"], alias1.dropRight 2)
  else (flags1, alias1)

/-- Embeds `re.match(r"^(\d)$", alias)`: the query is exactly one digit character
(0 through 9 — not merely 1 through 9). -/
def isSingleDigit (s : String) : Bool :=
  s.length = 1 && s.toList.all (·.isDigit)

/-- Embeds `int(alias)` for a single-digit string. -/
def digitVal (s : String) : Int :=
  match s.toList with
  | [c] => (c.toNat : Int) - ('0'.toNat : Int)
  | _ => 0

/-- The dispatch of `inlinequery` for a non-empty parsed query: single digit
→ favorite group, `%` → trending, set-alias flag → set-alias search,
otherwise personal-alias search. -/
def inlinequery_route (db : DB) (user_id : Int) (flags : List String)
    (alias' : String) : List (String × String) :=
  if isSingleDigit alias' then
    search_sticker_by_favortie db user_id (digitVal alias')
  else if alias' = "%" then search_trending_sticker db user_id
  else if flags.contains "set alias" then
    search_sticker_by_set_alias db alias'
  else search_sticker_by_alias db user_id alias'

/-- The fields of a Telegram sticker the handlers use. -/
structure StickerMsg where
  file_unique_id : String
  file_id : String
deriving Repr, DecidableEq

/-- Embeds `context.chat_data`, the per-chat scratch dictionary: each field `none`
models an absent key (reading an absent key raises `KeyError`). -/
structure ChatData where
  status : Option String
  group_no : Option Int
  number_of_stickers : Option Int
  sticker : Option StickerMsg
  stickers : Option (List StickerMsg)
deriving Repr, DecidableEq

/-- Embeds `context.chat_data.clear()` / a fresh chat. -/
def ChatData.empty : ChatData :=
  ⟨none, none, none, none, none⟩

/-- The distinct user-facing reply texts of `update_favorite`.
`alreadyInFavorite` carries the interpolated `conflict_group_no`
(`f"The sticker has already in favorite {conflict_group_no}."`); its
argument is an `Option` because the Python variable starts as `None`. -/
inductive Reply where
  | alreadyInThisFavorite
  | alreadyInFavorite (conflict_group_no : Option Int)
  | notInThisFavorite
deriving Repr, DecidableEq

/-- Embeds `authorize`: on first call caches `SELECT user_id FROM user` in
`context.bot_data["user_id"]`, then tests membership in the cached list.
Returns the decision and the (possibly freshly filled) cache. -/
def authorize (db : DB) (cache : Option (List Int)) (user_id : Int) :
    Bool × Option (List Int) :=
  match cache with
  | none =>
    let l := select_all_user_id db
    (user_id ∈ l, some l)
  | some l => (user_id ∈ l, some l)

/-- The `"Add favorite"` arm of `update_favorite`: try `insert_favorite`;
on FOREIGN KEY failure provision the sticker row (`insert_or_update_sticker`
with no alias and no set_alias, owner = current user) and retry once (the
retry is outside any `try`, so a second failure crashes); on UNIQUE failure
fetch the conflicting group and set `rowcount = -1`.  Returns
`(db, rowcount, conflict_group_no)`, or `none` for an uncaught exception. -/
def add_favorite_step (db : DB) (user_id : Int) (st : StickerMsg)
    (group_no : Int) : Option (DB × Int × Option Int) :=
  match insert_favorite db user_id st.file_unique_id group_no with
  | .ok db' => some (db', 1, none)
  | .error .fkFailed =>
    match insert_or_update_sticker db st.file_unique_id st.file_id user_id
        none none with
    | .error _ => none
    | .ok db1 =>
      match insert_favorite db1 user_id st.file_unique_id group_no with
      | .ok db' => some (db', 1, none)
      | .error _ => none
  | .error .uniqueFailed =>
    match search_favorite_group_no db user_id st.file_unique_id with
    | none => none
    | some conflict => some (db, -1, some conflict)

/-- The reply `update_favorite`'s add arm sends for a given `rowcount`:
1 → none (the pinned counter is edited instead), 0 → "The sticker has
already in this favorite.", -1 → "The sticker has already in favorite
{conflict_group_no}.". -/
def add_favorite_reply (rowcount : Int) (conflict_group_no : Option Int) :
    Option Reply :=
  if rowcount = 1 then none
  else if rowcount = 0 then some .alreadyInThisFavorite
  else if rowcount = -1 then some (.alreadyInFavorite conflict_group_no)
  else none

/-- Embeds `update_favorite`: dispatch on `chat_data["status"]` (a `KeyError` —
absent key — crashes); the add arm via `add_favorite_step`, the delete arm
via `delete_favoirte`; on `rowcount == 1` the tracked
`number_of_stickers` is incremented / decremented (reading it when absent
crashes).  Result `none` models an uncaught exception. -/
def update_favorite (db : DB) (chat : ChatData) (user_id : Int)
    (st : StickerMsg) : Option (DB × ChatData × Option Reply) :=
  match chat.status with
  | none => none
  | some status =>
    if status = "Add favorite" then
      match chat.group_no with
      | none => none
      | some g =>
        match add_favorite_step db user_id st g with
        | none => none
        | some (db', rowcount, conflict) =>
          if rowcount = 1 then
            match chat.number_of_stickers with
            | none => none
            | some n => some (db',
                { chat with number_of_stickers := some (n + 1) },
                add_favorite_reply rowcount conflict)
          else some (db', chat, add_favorite_reply rowcount conflict)
    else if status = "Delete favorite" then
      match chat.group_no with
      | none => none
      | some g =>
        let (db', rowcount) := delete_favoirte db user_id st.file_unique_id g
        if rowcount = 1 then
          match chat.number_of_stickers with
          | none => none
          | some n => some (db',
              { chat with number_of_stickers := some (n - 1) }, none)
        else if rowcount = 0 then some (db', chat, some .notInThisFavorite)
        else some (db', chat, none)
    else some (db, chat, none)

/-- Embeds `update_alias_1`: captures the submitted sticker (or, in bulk mode, the
whole sticker set fetched from the transport) into chat scratch data and
reports the existing alias / set_alias it displays; no database change. -/
def update_alias_1 (db : DB) (chat : ChatData) (st : StickerMsg)
    (sticker_set : List StickerMsg) : ChatData × Option String :=
  let result := search_sticker_by_unique_id db st.file_unique_id
  if chat.status = some "Bulk update alias" then
    ({ chat with stickers := some sticker_set },
     result.bind (·.set_alias))
  else
    ({ chat with sticker := some st },
     result.bind (·.alias'))

/-- Embeds `update_alias_2`: on text input, write the text as the personal alias of
the captured sticker, or as the set_alias of every sticker of the captured
set (bulk mode), via `insert_or_update_sticker`; then clear the chat scratch
data.  `none` models an uncaught exception (absent scratch key, or an
integrity error outside any `try`). -/
def update_alias_2 (db : DB) (chat : ChatData) (user_id : Int)
    (text : String) : Option (DB × ChatData) :=
  if chat.status = some "Bulk update alias" then
    match chat.stickers with
    | none => none
    | some sts =>
      match sts.foldlM (fun acc st => insert_or_update_sticker acc
          st.file_unique_id st.file_id user_id none (some text)) db with
      | .error _ => none
      | .ok db' => some (db', ChatData.empty)
  else
    match chat.sticker with
    | none => none
    | some st =>
      match insert_or_update_sticker db st.file_unique_id st.file_id user_id
          (some text) none with
      | .error _ => none
      | .ok db' => some (db', ChatData.empty)

/-- Embeds `favorite_command`: authorization gate, then record the add/delete
sub-mode in `chat_data["status"]` (the group keyboard it renders is
transport-side).  No database mutation. -/
def favorite_command (db : DB) (cache : Option (List Int)) (user_id : Int)
    (args : List String) (chat : ChatData) :
    DB × Option (List Int) × ChatData :=
  let (ok, cache') := authorize db cache user_id
  if !ok then (db, cache', chat)
  else
    match args with
    | [] => (db, cache', chat)
    | a :: _ =>
      if a = "add" then (db, cache', { chat with status := some "Add favorite" })
      else if a = "delete" then
        (db, cache', { chat with status := some "Delete favorite" })
      else (db, cache', chat)

/-- Embeds `bulk_command`: authorization gate, then set
`chat_data["status"] = "Bulk update alias"`.  No database mutation. -/
def bulk_command (db : DB) (cache : Option (List Int)) (user_id : Int)
    (chat : ChatData) : DB × Option (List Int) × ChatData :=
  let (ok, cache') := authorize db cache user_id
  if !ok then (db, cache', chat)
  else (db, cache', { chat with status := some "Bulk update alias" })

/-- Embeds `sticker_decision`: authorization gate, then dispatch a sticker
submission to `update_favorite` (when a favorite workflow is open) or to
`update_alias_1`.  `none` models an uncaught exception. -/
def sticker_decision (db : DB) (cache : Option (List Int)) (user_id : Int)
    (st : StickerMsg) (sticker_set : List StickerMsg) (chat : ChatData) :
    Option (DB × Option (List Int) × ChatData × Option Reply) :=
  let (ok, cache') := authorize db cache user_id
  if !ok then some (db, cache', chat, none)
  else
    let status := chat.status
    if status = some "Add favorite" || status = some "Delete favorite" then
      (update_favorite db chat user_id st).map fun r =>
        (r.1, cache', r.2.1, r.2.2)
    else
      let (chat', _shown) := update_alias_1 db chat st sticker_set
      some (db, cache', chat', none)

/-- Embeds `text_decision`: authorization gate, then dispatch free text to
`update_alias_2` when a sticker (or sticker set) is captured, else to the
help message.  `none` models an uncaught exception. -/
def text_decision (db : DB) (cache : Option (List Int)) (user_id : Int)
    (text : String) (chat : ChatData) :
    Option (DB × Option (List Int) × ChatData) :=
  let (ok, cache') := authorize db cache user_id
  if !ok then some (db, cache', chat)
  else if chat.sticker.isSome || chat.stickers.isSome then
    (update_alias_2 db chat user_id text).map fun r => (r.1, cache', r.2)
  else some (db, cache', chat)

/-- What `update.inline_query.answer(...)` was called with: the result rows
and whether `cache_time=0` was passed (the "fresh" flag). -/
structure InlineAnswer where
  results : List (String × String)
  fresh : Bool
deriving Repr, DecidableEq

/-- The outcome of one `inlinequery` call. -/
structure InlineOut where
  db : DB
  cache : Option (List Int)
  answer : Option InlineAnswer
  last_results : Option (List (String × String))
deriving Repr, DecidableEq

/-- Embeds `inlinequery`: authorization gate; parse the query; for an empty parsed
query serve the cached `user_data["last_results"]` when truthy (non-empty),
else the single top trending sticker if any; otherwise route the query,
answer only a truthy (non-empty) result list, and remember it as
`last_results`. -/
def inlinequery (db : DB) (cache : Option (List Int)) (user_id : Int)
    (query : String) (last_results : Option (List (String × String))) :
    InlineOut :=
  let (ok, cache') := authorize db cache user_id
  if !ok then ⟨db, cache', none, last_results⟩
  else
    let (flags, alias') := parse_flags query
    if alias' = "" then
      match last_results with
      | some (x :: xs) => ⟨db, cache', some ⟨x :: xs, false⟩, last_results⟩
      | _ =>
        match search_trending_sticker db user_id with
        | [] => ⟨db, cache', none, last_results⟩
        | s :: _ => ⟨db, cache', some ⟨[s], false⟩, last_results⟩
    else
      match inlinequery_route db user_id flags alias' with
      | [] => ⟨db, cache', none, last_results⟩
      | s :: ss => ⟨db, cache', some ⟨s :: ss, flags.contains "fresh"⟩,
          some (s :: ss)⟩

/-! Helper lemmas about the sticker upsert -/

lemma upsertUpdate_file_unique_id (uid : Int) (al sa : Option String)
    (r : StickerRow) :
    (upsertUpdate uid al sa r).file_unique_id = r.file_unique_id := by
  cases al <;> cases sa <;> rfl

lemma upsertUpdate_file_id (uid : Int) (al sa : Option String)
    (r : StickerRow) :
    (upsertUpdate uid al sa r).file_id = r.file_id := by
  cases al <;> cases sa <;> rfl

lemma stickerExists_of_found {db : DB} {fid : String} {r : StickerRow}
    (hr : search_sticker_by_unique_id db fid = some r) :
    stickerExists db fid = true := by
  have hr' : db.sticker.find?
      (fun x => decide (x.file_unique_id = fid)) = some r := hr
  have hp := List.find?_some hr'
  simp only [stickerExists, List.any_eq_true]
  exact ⟨r, List.mem_of_find?_eq_some hr', hp⟩

/-- The conflicting-upsert path: when a row with the key already exists, the
statement succeeds and afterwards the row looked up by key is the old row
with the `DO UPDATE SET` clause applied. -/
lemma insert_or_update_sticker_conflict (db : DB) (fid fid2 : String)
    (uid : Int) (al sa : Option String) (r : StickerRow)
    (hr : search_sticker_by_unique_id db fid = some r)
    (hu : userExists db uid = true) :
    ∃ db', insert_or_update_sticker db fid fid2 uid al sa = .ok db' ∧
      search_sticker_by_unique_id db' fid =
        some (upsertUpdate uid al sa r) := by
  have hex : stickerExists db fid = true := stickerExists_of_found hr
  have hstep : insert_or_update_sticker db fid fid2 uid al sa =
      .ok { db with sticker := db.sticker.map fun x =>
        if x.file_unique_id = fid then upsertUpdate uid al sa x else x } := by
    simp [insert_or_update_sticker, hu, hex]
  refine ⟨_, hstep, ?_⟩
  unfold search_sticker_by_unique_id at hr ⊢
  simp only [List.find?_map]
  have hcomp :
      ((fun x : StickerRow => decide (x.file_unique_id = fid)) ∘
        fun x : StickerRow =>
          if x.file_unique_id = fid then upsertUpdate uid al sa x else x) =
      fun x : StickerRow => decide (x.file_unique_id = fid) := by
    funext x
    by_cases hx : x.file_unique_id = fid
    · simp [hx, upsertUpdate_file_unique_id]
    · simp [hx]
  rw [hcomp, hr]
  have hpr : r.file_unique_id = fid := by
    simpa using List.find?_some hr
  simp [hpr]

/-- Claim **C3**: for an item row already present, upserting with only an alias
(set_alias = None) rewrites owner and alias but leaves the stored set_alias
(and file_id) unchanged; upserting with only a set_alias (alias = None)
rewrites owner and set_alias but leaves the stored alias unchanged. -/
theorem upsert_idempotence (db : DB) (fid fid2 : String) (r : StickerRow)
    (uid : Int) (a s : String)
    (hr : search_sticker_by_unique_id db fid = some r)
    (hu : userExists db uid = true) :
    (∃ dbA, insert_or_update_sticker db fid fid2 uid (some a) none = .ok dbA ∧
      search_sticker_by_unique_id dbA fid =
        some { r with user_id := uid, alias' := some a }) ∧
    (∃ dbS, insert_or_update_sticker db fid fid2 uid none (some s) = .ok dbS ∧
      search_sticker_by_unique_id dbS fid =
        some { r with user_id := uid, set_alias := some s }) := by
  refine ⟨?_, ?_⟩
  · obtain ⟨db', h1, h2⟩ :=
      insert_or_update_sticker_conflict db fid fid2 uid (some a) none r hr hu
    exact ⟨db', h1, h2⟩
  · obtain ⟨db', h1, h2⟩ :=
      insert_or_update_sticker_conflict db fid fid2 uid none (some s) r hr hu
    exact ⟨db', h1, h2⟩

/-- Witness database for C3: user 7 owns the sticker `"u1"` with alias
`"oa"` and set_alias `"os"`. -/
def dbW3 : DB :=
  ⟨[⟨7, 0⟩], [⟨"u1", "f1", 7, some "oa", some "os"⟩], [], [], []⟩

/-- Witness for C3 at a concrete database. -/
theorem upsert_idempotence_witness :
    (∃ dbA, insert_or_update_sticker dbW3 "u1" "f2" 7 (some "na") none =
        .ok dbA ∧
      search_sticker_by_unique_id dbA "u1" =
        some ⟨"u1", "f1", 7, some "na", some "os"⟩) ∧
    (∃ dbS, insert_or_update_sticker dbW3 "u1" "f2" 7 none (some "ns") =
        .ok dbS ∧
      search_sticker_by_unique_id dbS "u1" =
        some ⟨"u1", "f1", 7, some "oa", some "ns"⟩) :=
  upsert_idempotence dbW3 "u1" "f2" ⟨"u1", "f1", 7, some "oa", some "os"⟩
    7 "na" "ns" (by decide) (by decide)

/-- Counterexample database for C4: the sticker `"u1"` is stored with
file_id `"old"`. -/
def dbC4 : DB := ⟨[⟨7, 0⟩], [⟨"u1", "old", 7, none, none⟩], [], [], []⟩

/-- Claim **C4** is false as stated: upserting `"u1"` again with the new file_id
`"new"` succeeds but leaves the stored file_id at `"old"` — the
`DO UPDATE SET` clause never touches `file_id`. -/
theorem upsert_file_id_counterexample :
    insert_or_update_sticker dbC4 "u1" "new" 7 none none = .ok dbC4 ∧
    (search_sticker_by_unique_id dbC4 "u1").map StickerRow.file_id =
      some "old" ∧
    ("old" : String) ≠ "new" := by
  refine ⟨rfl, rfl, by decide⟩

/-- Claim **C4 (amended)**: on every upsert of an already-present unique_id, the
stored file_id keeps its previous value, whatever combination of alias /
set_alias is supplied; only the initial insert sets file_id. -/
theorem upsert_keeps_file_id (db : DB) (fid fid2 : String) (r : StickerRow)
    (uid : Int) (al sa : Option String)
    (hr : search_sticker_by_unique_id db fid = some r)
    (hu : userExists db uid = true) :
    ∃ db', insert_or_update_sticker db fid fid2 uid al sa = .ok db' ∧
      (search_sticker_by_unique_id db' fid).map StickerRow.file_id =
        some r.file_id := by
  obtain ⟨db', h1, h2⟩ :=
    insert_or_update_sticker_conflict db fid fid2 uid al sa r hr hu
  refine ⟨db', h1, ?_⟩
  rw [h2, Option.map_some']
  rw [upsertUpdate_file_id]

/-- Witness for the amended C4 at a concrete database. -/
theorem upsert_keeps_file_id_witness :
    ∃ db', insert_or_update_sticker dbC4 "u1" "new2" 7 (some "x") none =
        .ok db' ∧
      (search_sticker_by_unique_id db' "u1").map StickerRow.file_id =
        some "old" :=
  upsert_keeps_file_id dbC4 "u1" "new2" ⟨"u1", "old", 7, none, none⟩ 7
    (some "x") none (by decide) (by decide)

/-! Favorite workflow claims -/

/-- Database for C5: user 1 already has sticker `"Y"` in favorite group 3. -/
def dbC5 : DB :=
  ⟨[⟨1, 0⟩], [⟨"Y", "fy", 1, none, none⟩], [⟨1, "Y", 3⟩], [], []⟩

/-- Chat scratch state for C5: the add-favorite workflow is open on the
same group 3 with a tracked count of 1. -/
def chatC5 : ChatData :=
  ⟨some "Add favorite", some 3, some 1, none, none⟩

/-- Claim **C5**: submitting a sticker that is already in the *currently selected*
group does not mutate the store, but — contrary to the claim — it is
reported through the conflicting-group message `"The sticker has already in
favorite 3."` (the `rowcount == -1` branch), not through `"The sticker has
already in this favorite."`: a successful plain `INSERT` always has
`rowcount == 1` and a conflicting one raises, so the `rowcount == 0` branch
that carries the claim's `DuplicateInGroup` message is unreachable. -/
theorem add_favorite_same_group_report :
    update_favorite dbC5 chatC5 1 ⟨"Y", "fy"⟩ =
      some (dbC5, chatC5, some (Reply.alreadyInFavorite (some 3))) ∧
    add_favorite_step dbC5 1 ⟨"Y", "fy"⟩ 3 = some (dbC5, -1, some 3) ∧
    some (Reply.alreadyInFavorite (some 3)) ≠
      some Reply.alreadyInThisFavorite := by
  refine ⟨rfl, rfl, by decide⟩

/-- Claim **C6**: adding a never-seen sticker to a favorite group first provisions
the Item row (owner = current user, no alias, no set_alias), retries the
insert once, and succeeds: afterwards the favorite relation and the
provisioned sticker row both exist, and no exception escapes the handler. -/
theorem add_favorite_provisions_missing_sticker (db : DB) (uid : Int)
    (st : StickerMsg) (g : Int)
    (hu : userExists db uid = true)
    (hns : stickerExists db st.file_unique_id = false)
    (hnf : favPKConflict db uid st.file_unique_id = false) :
    ∃ db', add_favorite_step db uid st g = some (db', 1, none) ∧
      db'.favorite = db.favorite ++ [⟨uid, st.file_unique_id, g⟩] ∧
      db'.sticker = db.sticker ++
        [⟨st.file_unique_id, st.file_id, uid, none, none⟩] := by
  have hfirst : insert_favorite db uid st.file_unique_id g =
      .error .fkFailed := by
    simp [insert_favorite, hnf, hu, hns]
  have hprov : insert_or_update_sticker db st.file_unique_id st.file_id uid
      none none = .ok { db with sticker := db.sticker ++
        [⟨st.file_unique_id, st.file_id, uid, none, none⟩] } := by
    simp [insert_or_update_sticker, hu, hns]
  set db1 : DB := { db with sticker := db.sticker ++
    [⟨st.file_unique_id, st.file_id, uid, none, none⟩] } with hdb1
  have hnf1 : favPKConflict db1 uid st.file_unique_id = false := hnf
  have hu1 : userExists db1 uid = true := hu
  have hse1 : stickerExists db1 st.file_unique_id = true := by
    simp [stickerExists, hdb1, List.any_append]
  have hretry : insert_favorite db1 uid st.file_unique_id g =
      .ok { db1 with favorite :=
        db1.favorite ++ [⟨uid, st.file_unique_id, g⟩] } := by
    simp [insert_favorite, hnf1, hu1, hse1]
  refine ⟨{ db1 with favorite :=
    db1.favorite ++ [⟨uid, st.file_unique_id, g⟩] }, ?_, rfl, rfl⟩
  simp [add_favorite_step, hfirst, hprov, hretry]

/-- Witness database for C6: user 1 exists, sticker `"N"` has never been
seen and is in no favorite group. -/
def dbW6 : DB := ⟨[⟨1, 0⟩], [], [], [], []⟩

/-- Witness for C6 at a concrete database. -/
theorem add_favorite_provisions_missing_sticker_witness :
    ∃ db', add_favorite_step dbW6 1 ⟨"N", "fn"⟩ 5 = some (db', 1, none) ∧
      db'.favorite = dbW6.favorite ++ [⟨1, "N", 5⟩] ∧
      db'.sticker = dbW6.sticker ++ [⟨"N", "fn", 1, none, none⟩] :=
  add_favorite_provisions_missing_sticker dbW6 1 ⟨"N", "fn"⟩ 5
    (by decide) (by decide) (by decide)

/-- One favorite-workflow item submission, as `update_favorite` performs it:
an add step (with its FK-provisioning retry and UNIQUE handling) or a delete
step. -/
inductive FavOp where
  | add (user_id : Int) (st : StickerMsg) (group_no : Int)
  | del (user_id : Int) (st : StickerMsg) (group_no : Int)

/-- The database after one favorite-workflow step.  A crashing step (`none`
from `add_favorite_step`) never commits, so it leaves the database as it
was. -/
def applyFavOp (db : DB) : FavOp → DB
  | .add uid st g =>
    match add_favorite_step db uid st g with
    | some (db', _, _) => db'
    | none => db
  | .del uid st g => (delete_favoirte db uid st.file_unique_id g).1

/-- The database after a sequence of favorite-workflow steps. -/
def applyFavOps (db : DB) (ops : List FavOp) : DB :=
  ops.foldl applyFavOp db

/-- The favorite-exclusivity invariant: no two rows of `favorite` share the
(user_id, file_unique_id) pair, i.e. every (user, item) is in at most one
group. -/
def FavExclusive (db : DB) : Prop :=
  db.favorite.Pairwise fun a b =>
    ¬ (a.user_id = b.user_id ∧ a.file_unique_id = b.file_unique_id)

lemma insert_favorite_ok {db db' : DB} {uid : Int} {fid : String} {g : Int}
    (h : insert_favorite db uid fid g = .ok db') :
    favPKConflict db uid fid = false ∧
    db'.favorite = db.favorite ++ [⟨uid, fid, g⟩] := by
  unfold insert_favorite at h
  by_cases h1 : favPKConflict db uid fid = true
  · rw [if_pos h1] at h
    exact absurd h (by simp)
  · rw [if_neg h1] at h
    refine ⟨by simpa using h1, ?_⟩
    by_cases h2 : (userExists db uid && stickerExists db fid) = true
    · rw [if_neg (by simp [h2])] at h
      cases h
      rfl
    · rw [if_pos (by simpa using h2)] at h
      exact absurd h (by simp)

lemma insert_or_update_sticker_favorite {db db' : DB} {fid fid2 : String}
    {uid : Int} {al sa : Option String}
    (h : insert_or_update_sticker db fid fid2 uid al sa = .ok db') :
    db'.favorite = db.favorite := by
  unfold insert_or_update_sticker at h
  split at h
  · exact absurd h (by simp)
  · split at h <;> (cases h; rfl)

/-- The three possible outcomes of `add_favorite_step`: a crash (nothing
committed), a successful insert of the new relation (possible only without a
(user, item) conflict), or the UNIQUE-conflict report that returns the
database unchanged with `rowcount = -1`. -/
lemma add_favorite_step_cases (db : DB) (uid : Int) (st : StickerMsg)
    (g : Int) :
    add_favorite_step db uid st g = none ∨
    (∃ db', add_favorite_step db uid st g = some (db', 1, none) ∧
      favPKConflict db uid st.file_unique_id = false ∧
      db'.favorite = db.favorite ++ [⟨uid, st.file_unique_id, g⟩]) ∨
    (∃ c, add_favorite_step db uid st g = some (db, -1, some c)) := by
  unfold add_favorite_step
  split
  · rename_i db' h1
    obtain ⟨hno, hfav⟩ := insert_favorite_ok h1
    exact Or.inr (Or.inl ⟨db', rfl, hno, hfav⟩)
  · rename_i h1
    split
    · exact Or.inl rfl
    · rename_i db1 h2
      split
      · rename_i db'' h3
        obtain ⟨hno1, hfav1⟩ := insert_favorite_ok h3
        have hsame : db1.favorite = db.favorite :=
          insert_or_update_sticker_favorite h2
        refine Or.inr (Or.inl ⟨db'', rfl, ?_, ?_⟩)
        · have hpk : favPKConflict db1 uid st.file_unique_id =
              favPKConflict db uid st.file_unique_id := by
            unfold favPKConflict
            rw [hsame]
          rw [← hpk]
          exact hno1
        · rw [hfav1, hsame]
      · exact Or.inl rfl
  · rename_i h1
    split
    · exact Or.inl rfl
    · rename_i c h2
      exact Or.inr (Or.inr ⟨c, rfl⟩)

lemma FavExclusive_append {db : DB} {uid : Int} {fid : String} {g : Int}
    (hx : FavExclusive db) (hno : favPKConflict db uid fid = false) :
    List.Pairwise
      (fun a b : FavoriteRow =>
        ¬ (a.user_id = b.user_id ∧ a.file_unique_id = b.file_unique_id))
      (db.favorite ++ [⟨uid, fid, g⟩]) := by
  rw [List.pairwise_append]
  refine ⟨hx, List.pairwise_singleton _ _, ?_⟩
  intro a ha b hb
  simp only [List.mem_singleton] at hb
  subst hb
  have hf := List.any_eq_false.mp hno a ha
  simpa using hf

lemma FavExclusive_applyFavOp {db : DB} (hx : FavExclusive db) (op : FavOp) :
    FavExclusive (applyFavOp db op) := by
  cases op with
  | del uid st g =>
    have hfil : (applyFavOp db (.del uid st g)).favorite =
        db.favorite.filter (fun r => ¬ (r.user_id = uid ∧
          r.file_unique_id = st.file_unique_id ∧ r.group_no = g)) := rfl
    unfold FavExclusive
    rw [hfil]
    exact List.Pairwise.sublist (List.filter_sublist _) hx
  | add uid st g =>
    have heq : applyFavOp db (.add uid st g) =
        (match add_favorite_step db uid st g with
         | some (db', _, _) => db'
         | none => db) := rfl
    rcases add_favorite_step_cases db uid st g with
      h | ⟨db', h, hno, hfav⟩ | ⟨c, h⟩
    · rw [heq, h]
      exact hx
    · rw [heq, h]
      unfold FavExclusive
      rw [hfav]
      exact FavExclusive_append hx hno
    · rw [heq, h]
      exact hx

lemma FavExclusive_applyFavOps :
    ∀ (ops : List FavOp) (db : DB), FavExclusive db →
      FavExclusive (applyFavOps db ops)
  | [], _, h => h
  | op :: rest, db, h =>
    FavExclusive_applyFavOps rest (applyFavOp db op)
      (FavExclusive_applyFavOp h op)

/-- Claim **C2**: starting from a state satisfying favorite exclusivity, every
sequence of add/delete favorite steps preserves it; and an add submitted
while the (user, item) pair is already a member of some group changes
nothing — the handler either reports the conflict (`rowcount = -1`, store
untouched) or, in an inconsistent corner state, crashes without
committing. -/
theorem favorite_exclusivity (db : DB) (h : FavExclusive db) :
    (∀ ops : List FavOp, FavExclusive (applyFavOps db ops)) ∧
    (∀ (uid : Int) (st : StickerMsg) (g : Int),
      favPKConflict db uid st.file_unique_id = true →
      applyFavOp db (.add uid st g) = db ∧
      ∀ db' rc conflict, add_favorite_step db uid st g =
          some (db', rc, conflict) → db' = db ∧ rc = -1) := by
  constructor
  · exact fun ops => FavExclusive_applyFavOps ops db h
  · intro uid st g hconf
    constructor
    · have heq : applyFavOp db (.add uid st g) =
          (match add_favorite_step db uid st g with
           | some (db', _, _) => db'
           | none => db) := rfl
      rw [heq]
      rcases add_favorite_step_cases db uid st g with
        hc | ⟨db', hc, hno, hfav⟩ | ⟨c, hc⟩
      · rw [hc]
      · simp [hno] at hconf
      · rw [hc]
    · intro db' rc conflict hs
      rcases add_favorite_step_cases db uid st g with
        hc | ⟨db2, hc, hno, hfav⟩ | ⟨c, hc⟩
      · rw [hc] at hs
        exact absurd hs (by simp)
      · simp [hno] at hconf
      · rw [hc] at hs
        simp only [Option.some.injEq, Prod.mk.injEq] at hs
        exact ⟨hs.1.symm, hs.2.1.symm⟩

/-- Witness database for C2: user 1 exists and has sticker `"A"` in group 2
already; the favorite table satisfies exclusivity. -/
def dbW2 : DB :=
  ⟨[⟨1, 0⟩], [⟨"A", "fa", 1, none, none⟩], [⟨1, "A", 2⟩], [], []⟩

/-- Witness for C2: exclusivity after a concrete add/add/delete sequence,
and the no-mutation consequence for a conflicting add. -/
theorem favorite_exclusivity_witness :
    FavExclusive (applyFavOps dbW2 [FavOp.add 1 ⟨"B", "fb"⟩ 4,
      FavOp.add 1 ⟨"A", "fa"⟩ 5, FavOp.del 1 ⟨"A", "fa"⟩ 2]) ∧
    applyFavOp dbW2 (FavOp.add 1 ⟨"A", "fa"⟩ 5) = dbW2 :=
  ⟨(favorite_exclusivity dbW2 (by unfold FavExclusive; decide)).1 _,
   ((favorite_exclusivity dbW2 (by unfold FavExclusive; decide)).2
     1 ⟨"A", "fa"⟩ 5 (by decide)).1⟩

/-! Query-router claims -/

/-- Database for C9: sticker `"X"` carries the personal alias `"0"`; no
favorite rows exist, so favorite group 0 is empty. -/
def dbC9 : DB :=
  ⟨[⟨1, 0⟩], [⟨"X", "fx", 1, some "0", none⟩], [], [], []⟩

/-- Claim **C9** is false as stated: the router's digit pattern is `^(\d)$`, which
accepts `"0"`, so the query `"0"` is dispatched to the favorite-group lookup
for group 0 — not to the personal-alias substring search.  Concretely, with
a sticker aliased `"0"` the query returns nothing while the alias search
would return the sticker. -/
theorem route_zero_counterexample :
    parse_flags "0" = ([], "0") ∧
    inlinequery_route dbC9 1 [] "0" = search_sticker_by_favortie dbC9 1 0 ∧
    inlinequery_route dbC9 1 [] "0" = [] ∧
    search_sticker_by_alias dbC9 1 "0" = [("X", "fx")] ∧
    inlinequery dbC9 (some [1]) 1 "0" none =
      ⟨dbC9, some [1], none, none⟩ := by
  refine ⟨by decide, rfl, by decide, by decide, by decide⟩

/-- Claim **C9 (amended)**: the query string `"0"` is not empty, is not `"%"` and
carries no set-alias marker, but it *does* match the single-digit pattern
(`\d` accepts 0), so the router dispatches it to the favorite-group lookup
for group 0 for every database and user. -/
theorem route_zero_amended (db : DB) (uid : Int) :
    parse_flags "0" = ([], "0") ∧
    ("0" : String) ≠ "" ∧ ("0" : String) ≠ "%" ∧
    isSingleDigit "0" = true ∧
    inlinequery_route db uid [] "0" =
      search_sticker_by_favortie db uid 0 := by
  refine ⟨by decide, by decide, by decide, by decide, ?_⟩
  unfold inlinequery_route
  rw [if_pos (by decide)]
  rfl

/-- Database for C8: stickers `"A"` and `"B"` (in that table order) both
carry set_alias `"cats"`; user 1's trending scores are A ↦ 0, B ↦ 5. -/
def dbC8 : DB :=
  ⟨[⟨1, 0⟩],
   [⟨"A", "fa", 1, none, some "cats"⟩, ⟨"B", "fb", 1, none, some "cats"⟩],
   [], [],
   [⟨"A", 1, 0⟩, ⟨"B", 1, 5⟩]⟩

/-- Claim **C8** is false as stated: the set-alias query returns the matches in
sticker-table order — `"B"`, whose trending score (5) exceeds `"A"`'s (0),
still comes second, so the result is not ordered by trending score
descending (`search_sticker_by_set_alias` has no join and no ORDER BY). -/
theorem set_alias_search_counterexample :
    search_sticker_by_set_alias dbC8 "cat" = [("A", "fa"), ("B", "fb")] ∧
    trendScore dbC8 1 "A" = some 0 ∧
    trendScore dbC8 1 "B" = some 5 ∧
    search_sticker_by_set_alias dbC8 "cat" ≠ [("B", "fb"), ("A", "fa")] ∧
    inlinequery dbC8 (some [1]) 1 ",cat" none =
      ⟨dbC8, some [1], some ⟨[("A", "fa"), ("B", "fb")], false⟩,
       some [("A", "fa"), ("B", "fb")]⟩ := by
  refine ⟨by decide, by decide, by decide, by decide, by decide⟩

lemma filterMap_sublist_map {α β : Type} (f : α → Option β) (g : α → β)
    (hfg : ∀ x b, f x = some b → b = g x) :
    ∀ l : List α, (l.filterMap f).Sublist (l.map g)
  | [] => List.Sublist.refl _
  | x :: l => by
    rw [List.filterMap_cons, List.map_cons]
    cases hx : f x with
    | none => exact (filterMap_sublist_map f g hfg l).cons _
    | some b =>
      rw [hfg x b hx]
      exact (filterMap_sublist_map f g hfg l).cons₂ _

/-- Claim **C8 (amended)**: a query with the set-alias marker returns exactly the
stickers — of every owner — whose set_alias contains the query text (SQLite
`LIKE '%…%'`), but in sticker-table order: no trending-score ordering is
applied (the statement has no join and no ORDER BY). -/
theorem set_alias_search_amended (db : DB) (q : String) :
    (∀ fid fda, (fid, fda) ∈ search_sticker_by_set_alias db q ↔
      ∃ r ∈ db.sticker, r.file_unique_id = fid ∧ r.file_id = fda ∧
        ∃ sa, r.set_alias = some sa ∧ sqlLike sa q = true) ∧
    (search_sticker_by_set_alias db q).Sublist
      (db.sticker.map fun r => (r.file_unique_id, r.file_id)) := by
  constructor
  · intro fid fda
    unfold search_sticker_by_set_alias
    rw [List.mem_filterMap]
    constructor
    · rintro ⟨r, hr, hf⟩
      refine ⟨r, hr, ?_⟩
      cases hsa : r.set_alias with
      | none =>
        simp [hsa] at hf
      | some sa =>
        simp only [hsa] at hf
        by_cases hl : sqlLike sa q = true
        · rw [if_pos hl] at hf
          simp only [Option.some.injEq, Prod.mk.injEq] at hf
          exact ⟨hf.1, hf.2, sa, rfl, hl⟩
        · rw [if_neg hl] at hf
          exact absurd hf (by simp)
    · rintro ⟨r, hr, hfid, hfda, sa, hsa, hl⟩
      refine ⟨r, hr, ?_⟩
      simp only [hsa]
      rw [if_pos hl, hfid, hfda]
  · unfold search_sticker_by_set_alias
    refine filterMap_sublist_map _ _ ?_ _
    intro x b hx
    cases hsa : x.set_alias with
    | none => simp [hsa] at hx
    | some sa =>
      simp only [hsa] at hx
      by_cases hl : sqlLike sa q = true
      · rw [if_pos hl] at hx
        exact (Option.some.inj hx).symm
      · rw [if_neg hl] at hx
        exact absurd hx (by simp)

/-! Authorization gate (C10) -/

/-- Claim **C10**: for a user id not in the user table (with the bot_data cache
either unfilled or reflecting the current table), the favorite command, the
bulk command, the sticker handler, the text handler and the inline query
handler all return with the database unchanged, the chat state unchanged and
no reply / no results. -/
theorem unauthorized_handlers_no_effect (db : DB) (cache : Option (List Int))
    (uid : Int)
    (hc : cache = none ∨ cache = some (select_all_user_id db))
    (hu : uid ∉ select_all_user_id db) :
    (∀ args chat, favorite_command db cache uid args chat =
      (db, some (select_all_user_id db), chat)) ∧
    (∀ chat, bulk_command db cache uid chat =
      (db, some (select_all_user_id db), chat)) ∧
    (∀ st sset chat, sticker_decision db cache uid st sset chat =
      some (db, some (select_all_user_id db), chat, none)) ∧
    (∀ text chat, text_decision db cache uid text chat =
      some (db, some (select_all_user_id db), chat)) ∧
    (∀ q last, inlinequery db cache uid q last =
      ⟨db, some (select_all_user_id db), none, last⟩) := by
  have hdec : decide (uid ∈ select_all_user_id db) = false :=
    decide_eq_false hu
  have hauth : authorize db cache uid =
      (false, some (select_all_user_id db)) := by
    rcases hc with hc | hc <;> subst hc <;> simp [authorize, hdec]
  refine ⟨?_, ?_, ?_, ?_, ?_⟩ <;> intros <;>
    simp [favorite_command, bulk_command, sticker_decision, text_decision,
      inlinequery, hauth]

/-- Witness database for C10: the only authorized user is 1. -/
def dbW10 : DB := ⟨[⟨1, 0⟩], [], [], [], []⟩

/-- Witness for C10: user 99 is rejected by two representative handlers. -/
theorem unauthorized_handlers_no_effect_witness :
    favorite_command dbW10 none 99 ["add"] ChatData.empty =
      (dbW10, some [1], ChatData.empty) ∧
    inlinequery dbW10 none 99 "%" none = ⟨dbW10, some [1], none, none⟩ :=
  ⟨(unauthorized_handlers_no_effect dbW10 none 99 (Or.inl rfl)
      (by decide)).1 ["add"] ChatData.empty,
   (unauthorized_handlers_no_effect dbW10 none 99 (Or.inl rfl)
      (by decide)).2.2.2.2 "%" none⟩

/-! Empty-query preview (C7) -/

/-- Database for C7: user 1 has two ranked stickers, `"A"` (score 1, the
top) and `"B"` (score 0). -/
def dbC7 : DB :=
  ⟨[⟨1, 0⟩],
   [⟨"A", "fa", 1, none, none⟩, ⟨"B", "fb", 1, none, none⟩],
   [], [],
   [⟨"A", 1, 1⟩, ⟨"B", 1, 0⟩]⟩

/-- Claim **C7** is false as stated: with a cached `last_results` from a previous
query, the empty query answers the cache — here `[("B","fb")]` — and not the
single top-ranked trending item `("A","fa")`, even though the user has
ranked items. -/
theorem empty_query_counterexample :
    search_trending_sticker dbC7 1 = [("A", "fa"), ("B", "fb")] ∧
    inlinequery dbC7 (some [1]) 1 "" (some [("B", "fb")]) =
      ⟨dbC7, some [1], some ⟨[("B", "fb")], false⟩, some [("B", "fb")]⟩ ∧
    some (InlineAnswer.mk [("B", "fb")] false) ≠
      some (InlineAnswer.mk [("A", "fa")] false) := by
  refine ⟨by decide, by decide, by decide⟩

/-- Claim **C7 (amended)**: when no previous results are cached (`last_results`
absent or empty), the empty query answers nothing if the user has no ranked
sticker, and otherwise answers exactly one sticker which is ranked for the
user with maximal trending score. -/
theorem empty_query_preview (db : DB) (uid : Int)
    (last : Option (List (String × String)))
    (hu : uid ∈ select_all_user_id db)
    (hlast : last = none ∨ last = some []) :
    (rankedRows db uid = [] →
      inlinequery db (some (select_all_user_id db)) uid "" last =
        ⟨db, some (select_all_user_id db), none, last⟩) ∧
    (rankedRows db uid ≠ [] →
      ∃ fid fda sc,
        inlinequery db (some (select_all_user_id db)) uid "" last =
          ⟨db, some (select_all_user_id db), some ⟨[(fid, fda)], false⟩,
           last⟩ ∧
        (fid, fda, sc) ∈ rankedRows db uid ∧
        ∀ r ∈ rankedRows db uid, r.2.2 ≤ sc) := by
  have hdec : decide (uid ∈ select_all_user_id db) = true :=
    decide_eq_true hu
  have hauth : authorize db (some (select_all_user_id db)) uid =
      (true, some (select_all_user_id db)) := by
    simp [authorize, hdec]
  have hbody : inlinequery db (some (select_all_user_id db)) uid "" last =
      (match search_trending_sticker db uid with
       | [] => ⟨db, some (select_all_user_id db), none, last⟩
       | s :: _ =>
         ⟨db, some (select_all_user_id db), some ⟨[s], false⟩, last⟩) := by
    rcases hlast with h | h <;> subst h <;>
      simp [inlinequery, hauth, parse_flags, prefixMatch, suffixMatch]
  constructor
  · intro hr0
    rw [hbody]
    simp [search_trending_sticker, hr0]
  · intro hrne
    have hperm := List.perm_insertionSort geScore (rankedRows db uid)
    have hsorted := List.sorted_insertionSort geScore (rankedRows db uid)
    cases hsort : (rankedRows db uid).insertionSort geScore with
    | nil =>
      rw [hsort] at hperm
      exact absurd (hperm.symm.eq_nil) hrne
    | cons hd tl =>
      rw [hsort] at hperm hsorted
      refine ⟨hd.1, hd.2.1, hd.2.2, ?_, ?_, ?_⟩
      · rw [hbody]
        have hst : search_trending_sticker db uid =
            (hd.1, hd.2.1) :: tl.map fun r => (r.1, r.2.1) := by
          unfold search_trending_sticker
          rw [hsort]
          rfl
        rw [hst]
      · exact hperm.subset (List.mem_cons_self hd tl)
      · intro r hr
        have hr' : r ∈ hd :: tl := hperm.mem_iff.mpr hr
        rcases List.mem_cons.mp hr' with h | h
        · subst h
          exact le_refl _
        · exact List.rel_of_sorted_cons hsorted r h

/-- Witness database for C7: user 1 has exactly one ranked sticker. -/
def dbW7 : DB :=
  ⟨[⟨1, 0⟩], [⟨"A", "fa", 1, none, none⟩], [], [], [⟨"A", 1, 0⟩]⟩

/-- Witness for the amended C7 at a concrete database. -/
theorem empty_query_preview_witness :
    (rankedRows dbW7 1 = [] →
      inlinequery dbW7 (some (select_all_user_id dbW7)) 1 "" none =
        ⟨dbW7, some (select_all_user_id dbW7), none, none⟩) ∧
    (rankedRows dbW7 1 ≠ [] →
      ∃ fid fda sc,
        inlinequery dbW7 (some (select_all_user_id dbW7)) 1 "" none =
          ⟨dbW7, some (select_all_user_id dbW7), some ⟨[(fid, fda)], false⟩,
           none⟩ ∧
        (fid, fda, sc) ∈ rankedRows dbW7 1 ∧
        ∀ r ∈ rankedRows dbW7 1, r.2.2 ≤ sc) :=
  empty_query_preview dbW7 1 none (by decide) (Or.inl rfl)

/-! End-to-end scoring scenario (C1) -/

/-- Predicate "a strictly precedes b in l": a appears at a smaller index. -/
def strictlyBefore {α : Type} (l : List α) (a b : α) : Prop :=
  ∃ i j, i < j ∧ l.get? i = some a ∧ l.get? j = some b

lemma pyRound_intCast (n : ℤ) : pyRound ((n : ℤ) : ℝ) = n := by
  unfold pyRound
  rw [Int.floor_intCast]
  rw [if_pos (by norm_num)]

lemma day_age_eleven : day_age 950400 0 = 11 := by
  unfold day_age
  have h : (((950400 - 0 : Int) : ℝ)) / 86400 = ((11 : ℤ) : ℝ) := by
    norm_num
  rw [h, pyRound_intCast]

lemma day_age_one : day_age 950400 864000 = 1 := by
  unfold day_age
  have h : (((950400 - 864000 : Int) : ℝ)) / 86400 = ((1 : ℤ) : ℝ) := by
    norm_num
  rw [h, pyRound_intCast]

lemma calculate_score_11_lt_1 :
    calculate_score ((11 : ℤ) : ℝ) < calculate_score ((1 : ℤ) : ℝ) := by
  unfold calculate_score
  have h1 : ((11 : ℤ) : ℝ) + 2 = 13 := by norm_num
  have h2 : ((1 : ℤ) : ℝ) + 2 = 3 := by norm_num
  rw [h1, h2]
  have h3 : (3 : ℝ) ^ (1.8 : ℝ) < 13 ^ (1.8 : ℝ) :=
    Real.rpow_lt_rpow (by norm_num) (by norm_num) (by norm_num)
  exact one_div_lt_one_div_of_lt (Real.rpow_pos_of_pos (by norm_num) _) h3

/-- The C1 scenario database: user 1 chose item `"Y"` on day 0 (t = 0 s) and
item `"Z"` on day 10 (t = 864000 s); the run happens on day 11
(now = 950400 s). -/
def dbC1 : DB :=
  ⟨[⟨1, 0⟩],
   [⟨"Y", "fy", 1, none, none⟩, ⟨"Z", "fz", 1, none, none⟩],
   [], [⟨"Y", 1, 0⟩, ⟨"Z", 1, 864000⟩], []⟩

lemma scoreY_eval :
    scoreOf 950400 [⟨"Y", 1, 0⟩, ⟨"Z", 1, 864000⟩] "Y" =
      calculate_score ((11 : ℤ) : ℝ) := by
  have hfil : (([⟨"Y", 1, 0⟩, ⟨"Z", 1, 864000⟩] : List ChosenRow).filter
      fun r => r.file_unique_id = "Y") = [⟨"Y", 1, 0⟩] := by decide
  unfold scoreOf
  rw [hfil]
  simp only [List.foldl_cons, List.foldl_nil]
  rw [zero_add, day_age_eleven]

lemma scoreZ_eval :
    scoreOf 950400 [⟨"Y", 1, 0⟩, ⟨"Z", 1, 864000⟩] "Z" =
      calculate_score ((1 : ℤ) : ℝ) := by
  have hfil : (([⟨"Y", 1, 0⟩, ⟨"Z", 1, 864000⟩] : List ChosenRow).filter
      fun r => r.file_unique_id = "Z") = [⟨"Z", 1, 864000⟩] := by decide
  unfold scoreOf
  rw [hfil]
  simp only [List.foldl_cons, List.foldl_nil]
  rw [zero_add, day_age_one]

lemma scoreYZ_le :
    scoreOf 950400 [⟨"Y", 1, 0⟩, ⟨"Z", 1, 864000⟩] "Y" ≤
      scoreOf 950400 [⟨"Y", 1, 0⟩, ⟨"Z", 1, 864000⟩] "Z" := by
  rw [scoreY_eval, scoreZ_eval]
  exact le_of_lt calculate_score_11_lt_1

lemma sortC1_eval :
    sortByScore (scoreOf 950400 [⟨"Y", 1, 0⟩, ⟨"Z", 1, 864000⟩])
      ["Y", "Z"] = ["Y", "Z"] := by
  unfold sortByScore
  simp only [List.insertionSort, List.orderedInsert]
  rw [if_pos scoreYZ_le]

lemma recorderC1_eval :
    search_chosen_recent dbC1 1 (950400 - 90 * 86400) =
      [⟨"Y", 1, 0⟩, ⟨"Z", 1, 864000⟩] := by decide

lemma trendingRowsForC1_eval :
    trendingRowsFor dbC1 950400 1 = [⟨"Y", 1, 0⟩, ⟨"Z", 1, 1⟩] := by
  unfold trendingRowsFor
  simp only [recorderC1_eval]
  have hmap : (([⟨"Y", 1, 0⟩, ⟨"Z", 1, 864000⟩] : List ChosenRow).map
      fun r => r.file_unique_id) = ["Y", "Z"] := by decide
  rw [hmap]
  have hdict : dictKeys ["Y", "Z"] = ["Y", "Z"] := by decide
  rw [hdict, sortC1_eval]
  decide

lemma trendingRunC1_eval :
    callback_update_trending dbC1 950400 =
      { dbC1 with trending := [⟨"Y", 1, 0⟩, ⟨"Z", 1, 1⟩] } := by
  unfold callback_update_trending
  have husers : select_all_user_id dbC1 = [1] := by decide
  rw [husers]
  simp only [List.foldl_cons, List.foldl_nil, List.nil_append]
  rw [trendingRowsForC1_eval]

lemma servedC1_eval :
    search_trending_sticker (callback_update_trending dbC1 950400) 1 =
      [("Z", "fz"), ("Y", "fy")] := by
  rw [trendingRunC1_eval]
  decide

/-- Claim **C1** is false as stated: in the scenario (Y chosen on day 0, Z chosen
on day 10, scoring run at day 11) the `%` query does *not* return Y strictly
before Z — the served list is `[Z, Y]`.  Z, the more recent pick, scores
higher, receives the larger rank index, and `ORDER BY score DESC` therefore
serves it first. -/
theorem trending_order_counterexample :
    search_trending_sticker (callback_update_trending dbC1 950400) 1 =
      [("Z", "fz"), ("Y", "fy")] ∧
    ¬ strictlyBefore
      (search_trending_sticker (callback_update_trending dbC1 950400) 1)
      ("Y", "fy") ("Z", "fz") := by
  refine ⟨servedC1_eval, ?_⟩
  rw [servedC1_eval]
  rintro ⟨i, j, hij, hi, hj⟩
  match i, hi with
  | 0, hi => exact absurd hi (by decide)
  | 1, hi =>
    match j, hij with
    | (n + 2), _ => exact absurd hj (by simp [List.get?])
  | (n + 2), hi => exact absurd hi (by simp [List.get?])

/-- Claim **C1 (amended)**: in the scenario, the `%` query returns Z strictly
before Y: the more recently used item outranks the older one, because ranks
are assigned 0..n-1 in ascending score order and the served query reads
`ORDER BY score DESC`. -/
theorem trending_order_amended :
    search_trending_sticker (callback_update_trending dbC1 950400) 1 =
      [("Z", "fz"), ("Y", "fy")] ∧
    strictlyBefore
      (search_trending_sticker (callback_update_trending dbC1 950400) 1)
      ("Z", "fz") ("Y", "fy") := by
  refine ⟨servedC1_eval, ?_⟩
  rw [servedC1_eval]
  exact ⟨0, 1, by decide, rfl, rfl⟩
